import Mathlib

/-!
Shallow embedding of the JetSet trip-planning assistant (`langchain_planner.py`):
the date-reference resolver `parse_date_with_reference`, the orchestrator
`LangChainTravelPlanner.plan_trip`, and the weather tool `get_weather_forecast`,
together with theorems settling the specification claims about them.
-/

/-- A calendar date `(year, month, day)`, mirroring Python's `datetime.date`
triple.  The calendar arithmetic of the source is modelled explicitly below
(leap years, days per month, lexicographic comparison). -/
structure Date where
  year : Int
  month : Nat
  day : Nat
deriving DecidableEq, Repr

/-- Python's `date` comparison: lexicographic on `(year, month, day)`. -/
def Date.ltb (a b : Date) : Bool :=
  if a.year = b.year then
    (if a.month = b.month then decide (a.day < b.day) else decide (a.month < b.month))
  else decide (a.year < b.year)

/-- Gregorian leap-year test, as used by Python's `datetime` module. -/
def isLeapYear (y : Int) : Bool :=
  y % 4 == 0 && (y % 100 != 0 || y % 400 == 0)

/-- Number of days in a month of a given year (Python `calendar` rules). -/
def daysInMonth (y : Int) (m : Nat) : Nat :=
  if m = 2 then (if isLeapYear y then 29 else 28)
  else if m = 4 ∨ m = 6 ∨ m = 9 ∨ m = 11 then 30
  else 31

/-- Whether `(y, m, d)` is a real calendar date (`datetime.date` would accept it). -/
def validDate (y : Int) (m d : Nat) : Bool :=
  decide (1 ≤ m ∧ m ≤ 12 ∧ 1 ≤ d ∧ d ≤ daysInMonth y m)

/-- Python's `date.replace(year=y)`: succeeds iff the month/day pair exists in
the new year (it raises `ValueError` for Feb 29 into a non-leap year, modelled
as `none`). -/
def Date.replaceYear (d : Date) (y : Int) : Option Date :=
  if validDate y d.month d.day then some ⟨y, d.month, d.day⟩ else none

/-- Python regex `\w`: word characters (restricted to ASCII, which is all the
month-name and digit material the resolver's formats can accept). -/
def isWordChar (c : Char) : Bool := c.isAlphanum || c == '_'

/-- Python regex `\s`: whitespace characters. -/
def isSpaceChar (c : Char) : Bool :=
  c == ' ' || c == '\t' || c == '\n' || c == '\r' || c == '\x0b' || c == '\x0c'

/-- Greedy `\d{1,2}`: one or two leading digits of the remaining input. -/
def takeDay : List Char → Option String
  | [] => none
  | [c] => if c.isDigit then some (String.mk [c]) else none
  | c1 :: c2 :: _ =>
    if c1.isDigit then
      if c2.isDigit then some (String.mk [c1, c2]) else some (String.mk [c1])
    else none

/-- `re.match` of `(?P<month>\w+)\s+(?P<day>\d{1,2})(?:st|nd|rd|th)?` (the first
two patterns of the resolver's format table, which capture identical groups):
returns the `month` and `day` groups.  Anchored at the start of the string;
trailing input (such as an explicit year) is not consumed.  Since `\w`, `\s` and
`\d` are pairwise disjoint, greedy matching needs no backtracking. -/
def matchMonthDay (s : String) : Option (String × String) :=
  match s.data.span isWordChar with
  | (word, rest) =>
    if word.isEmpty then none
    else
      match rest.span isSpaceChar with
      | (sp, rest2) =>
        if sp.isEmpty then none
        else (takeDay rest2).map (fun d => (String.mk word, d))

/-- `re.match` of `(?P<month>\d{1,2})/(?P<day>\d{1,2})` (the numeric third
pattern), on the character list of the input. -/
def matchSlashAux : List Char → Option (String × String)
  | a :: b :: c :: rest =>
    if a.isDigit && b.isDigit && c == '/' then
      (takeDay rest).map (fun d => (String.mk [a, b], d))
    else if a.isDigit && b == '/' then
      (takeDay (c :: rest)).map (fun d => (String.mk [a], d))
    else none
  | _ => none

/-- `re.match` of the numeric `MM/DD` pattern against the input string. -/
def matchSlash (s : String) : Option (String × String) := matchSlashAux s.data

/-- ASCII lowercasing (strptime matches month names case-insensitively). -/
def lowerStr (s : String) : String := String.mk (s.data.map Char.toLower)

/-- The numeric value of a list of decimal digit characters. -/
def digitsToNat (cs : List Char) : Nat :=
  cs.foldl (fun n c => 10 * n + (c.toNat - 48)) 0

/-- Python `int()` on a digit string: the number it names, failing on an empty
string or any non-digit character. -/
def parseNatStr (s : String) : Option Nat :=
  if s.data ≠ [] ∧ s.data.all Char.isDigit then some (digitsToNat s.data) else none

/-- The month-name table of `strptime`'s `%B` directive. -/
def monthNames : List (String × Nat) :=
  [("january", 1), ("february", 2), ("march", 3), ("april", 4), ("may", 5), ("june", 6),
   ("july", 7), ("august", 8), ("september", 9), ("october", 10), ("november", 11),
   ("december", 12)]

/-- `%B`: a full month name (case-insensitive) to its number, else failure. -/
def monthFromName (s : String) : Option Nat :=
  (monthNames.find? (fun p => p.1 == lowerStr s)).map (fun p => p.2)

/-- `datetime.strptime(f"{month} {day} {year}", "%B %d %Y").date()` as called on
line 42 of the source: the month group must be a full month name, the day group
a number naming a real day of that month/year; any failure is the `ValueError`
the caller catches (modelled as `none`).  Note the source always uses the fixed
format `"%B %d %Y"`; the per-pattern `date_format` entries of its table are
never consulted. -/
def strptime_BdY (monthStr dayStr : String) (year : Int) : Option Date :=
  match monthFromName monthStr, parseNatStr dayStr with
  | some m, some d =>
      if 1 ≤ d ∧ d ≤ daysInMonth year m then some ⟨year, m, d⟩ else none
  | _, _ => none

/-- Lines 42-43: construct a date from a pattern's `month`/`day` groups and the
reference year (no groups, or a `strptime` failure, yields `none`). -/
def constructFromPattern (groups : Option (String × String)) (year : Int) : Option Date :=
  match groups with
  | none => none
  | some g => strptime_BdY g.1 g.2 year

/-- The date constructed (with the reference year) by whichever of the
resolver's patterns first matches and parses — the "constructed date" of the
spec's year-rollover rule. -/
def constructedDate (s : String) (year : Int) : Option Date :=
  match constructFromPattern (matchMonthDay s) year with
  | some d => some d
  | none => constructFromPattern (matchSlash s) year

/-- Lines 46-48 (and identically 56-57): the year-rollover rule.  If the parsed
date is strictly before the reference date and the reference date is not
December 31, replace its year with `reference.year + 1` (which can itself raise
`ValueError`, modelled as `none`); otherwise return it unchanged. -/
def rollover (d : Date) (ref : Date) : Option Date :=
  if d.ltb ref && !(ref.month == 12 && ref.day == 31) then
    d.replaceYear (ref.year + 1)
  else some d

/-- One iteration of the format loop (lines 37-50): if the pattern matched,
construct the date and apply the rollover; any `ValueError` makes the loop
`continue` (modelled as `none`). -/
def tryPattern (groups : Option (String × String)) (ref : Date) : Option Date :=
  match constructFromPattern groups ref.year with
  | none => none
  | some d => rollover d ref

/-- The whole format loop over the three patterns of lines 31-35 (the first two
patterns capture identical groups, so they are tried twice verbatim). -/
def tryFormats (s : String) (ref : Date) : Option Date :=
  match tryPattern (matchMonthDay s) ref with
  | some d => some d
  | none =>
    match tryPattern (matchMonthDay s) ref with
    | some d => some d
    | none => tryPattern (matchSlash s) ref

/-- The separators the lenient fallback parser tokenizes on. -/
def isDateSep (c : Char) : Bool := c == ' ' || c == ',' || c == '/' || c == '-'

/-- Split a character list into maximal separator-free runs (`cur` is the
current run, reversed). -/
def tokensAux : List Char → List Char → List String
  | [], cur => if cur.isEmpty then [] else [String.mk cur.reverse]
  | c :: rest, cur =>
    if isDateSep c then
      (if cur.isEmpty then tokensAux rest [] else String.mk cur.reverse :: tokensAux rest [])
    else tokensAux rest (c :: cur)

/-- The input string split into the tokens the lenient fallback parser reads. -/
def dateutilTokens (s : String) : List String := tokensAux s.data []

/-- Modelled from the spec: the "lenient general-purpose date parser" used as
the resolver's fallback (the external `dateutil.parser.parse` library, which is
not part of this repository), invoked "with the reference date supplied as the
default-fill value".  It accepts a month-name/day pair, a numeric month/day
pair, and the same forms with an explicit year, filling a missing year from the
default date; on anything else it fails (the failure standing for the parser's
`ValueError`). -/
def dateutil_parse (s : String) (dflt : Date) : Option Date :=
  match dateutilTokens s with
  | [t1, t2] =>
    (match monthFromName t1, parseNatStr t2 with
     | some m, some d =>
         if validDate dflt.year m d then some ⟨dflt.year, m, d⟩ else none
     | _, _ =>
       match parseNatStr t1, parseNatStr t2 with
       | some m, some d =>
           if validDate dflt.year m d then some ⟨dflt.year, m, d⟩ else none
       | _, _ => none)
  | [t1, t2, t3] =>
    (match monthFromName t1, parseNatStr t2, parseNatStr t3 with
     | some m, some d, some y =>
         if validDate (Int.ofNat y) m d then some ⟨Int.ofNat y, m, d⟩ else none
     | _, _, _ =>
       match parseNatStr t1, parseNatStr t2, parseNatStr t3 with
       | some a, some b, some c =>
         if 1000 ≤ a then
           (if validDate (Int.ofNat a) b c then some ⟨Int.ofNat a, b, c⟩ else none)
         else
           (if validDate (Int.ofNat c) a b then some ⟨Int.ofNat c, a, b⟩ else none)
       | _, _, _ => none)
  | _ => none

/-- Lines 52-60: the fallback branch — lenient parse with the reference date as
default, then the same rollover rule; `ImportError`/`ValueError` anywhere in the
branch falls through (modelled as `none`). -/
def dateutilStep (s : String) (ref : Date) : Option Date :=
  match dateutil_parse s ref with
  | none => none
  | some d => rollover d ref

/-- `parse_date_with_reference(date_str, reference_date)` for a bound (non-None)
reference date: the format loop, then the lenient fallback, then the reference
date itself (line 63). -/
def parse_date_with_reference (s : String) (ref : Date) : Date :=
  match tryFormats s ref with
  | some d => d
  | none =>
    match dateutilStep s ref with
    | some d => d
    | none => ref

/-- The full signature with its `reference_date=None` default: when no reference
date is supplied the wall clock (`date.today()`, passed here explicitly as
`today`) is consulted; otherwise `today` is never read. -/
def parse_date_with_reference_default (s : String) (refOpt : Option Date)
    (today : Date) : Date :=
  parse_date_with_reference s (refOpt.getD today)

/-- A LangChain chat message: `HumanMessage` or `AIMessage`. -/
inductive ChatMessage
  | human (content : String)
  | ai (content : String)
deriving DecidableEq, Repr

/-- One caller-supplied prior turn: a `{role, content}` dictionary of
`request_data["chat_history"]`. -/
structure ChatTurn where
  role : String
  content : String
deriving DecidableEq, Repr

/-- Lines 279-280: `HumanMessage(content=...) if msg["role"] == "user" else
AIMessage(content=...)`. -/
def convertTurn (t : ChatTurn) : ChatMessage :=
  if t.role == "user" then ChatMessage.human t.content else ChatMessage.ai t.content

/-- The dictionary `plan_trip` returns: a `success` flag and the optional
`data` and `error` keys (`none` = key absent). -/
structure PlanResult where
  success : Bool
  data : Option String
  error : Option String
deriving DecidableEq, Repr

/-- The orchestrator's mutable state: its `self.chat_history` list. -/
structure PlannerState where
  chat_history : List ChatMessage
deriving DecidableEq, Repr

/-- The outcome of the external agent invocation (prompt assembly +
`agent_executor.ainvoke`), which this embedding takes as an input: either a
response whose `"output"` key holds `some` text (`none` when the response is
falsy or lacks the key), or an exception carrying the message `str(e)` and the
diagnostic `traceback.format_exc()` text. -/
inductive AgentOutcome
  | ok (response : Option String)
  | exn (msg : String) (trace : String)
deriving DecidableEq, Repr

/-- `LangChainTravelPlanner.plan_trip` (lines 251-313): extend the chat history
with the converted caller-supplied turns, then invoke the agent; on an
`"output"` answer append it to the history and return `{success: True, data}`;
on a missing output return `{success: False, error: "No valid response..."}`;
on an exception return `{success: False, error: message + traceback}`.  The
history extension happens before the invocation, so both failure paths keep the
extended history. -/
def plan_trip (st : PlannerState) (_input : String) (turns : List ChatTurn)
    (outcome : AgentOutcome) : PlanResult × PlannerState :=
  let hist := st.chat_history ++ turns.map convertTurn
  match outcome with
  | .ok (some out) =>
      (⟨true, some out, none⟩, ⟨hist ++ [ChatMessage.ai out]⟩)
  | .ok none =>
      (⟨false, none, some "No valid response from the agent."⟩, ⟨hist⟩)
  | .exn msg trace =>
      (⟨false, none, some ("Error in plan_trip: " ++ msg ++ "\n\n" ++ trace)⟩, ⟨hist⟩)

/-- One successful call to `plan_trip` on the same orchestrator instance: its
input text, its caller-supplied prior turns, and the model's final answer. -/
structure CallSpec where
  input : String
  turns : List ChatTurn
  output : String
deriving DecidableEq, Repr

/-- The messages one successful call appends to the instance's history. -/
def callTrace (c : CallSpec) : List ChatMessage :=
  c.turns.map convertTurn ++ [ChatMessage.ai c.output]

/-- N successive successful calls to `plan_trip` on the same instance. -/
def runCalls (st : PlannerState) (calls : List CallSpec) : PlannerState :=
  calls.foldl
    (fun s c => (plan_trip s c.input c.turns (AgentOutcome.ok (some c.output))).2) st

/-- One entry of the geocoding response's `results` array. -/
structure GeoResult where
  latitude : String
  longitude : String
deriving DecidableEq, Repr

/-- The geocoding response body: its (possibly empty) `results` array. -/
structure GeoData where
  results : List GeoResult
deriving DecidableEq, Repr

/-- The forecast response's `daily` block: parallel arrays indexed by day
offset.  The numeric payloads are carried as the strings they print as, which
is all `get_weather_forecast` does with them. -/
structure DailyData where
  time : List String
  temperature_2m_max : List String
  temperature_2m_min : List String
  precipitation_sum : List String
deriving DecidableEq, Repr

/-- The forecast response body. -/
structure WeatherData where
  daily : DailyData
deriving DecidableEq, Repr

/-- The outcome of one HTTP request made by the weather tool: a parsed
response, or an exception (transport failure, `raise_for_status`, bad JSON)
carrying its `str(e)` text. -/
inductive HttpOutcome (α : Type)
  | ok (resp : α)
  | exn (msg : String)
deriving DecidableEq, Repr

/-- Lines 148-153: the per-day forecast line; `none` when a parallel array is
too short (Python's `IndexError`). -/
def formatDay (d : DailyData) (i : Nat) (dateStr : String) : Option String :=
  match d.temperature_2m_max[i]?, d.temperature_2m_min[i]?, d.precipitation_sum[i]? with
  | some hi, some lo, some pr =>
      some (dateStr ++ ": High: " ++ hi ++ "°C, Low: " ++ lo ++ "°C, Precipitation: "
        ++ pr ++ "mm")
  | _, _, _ => none

/-- The `for i, date_str in enumerate(...)` loop of lines 146-153, starting at
index `i`. -/
def formatDaysAux (d : DailyData) (i : Nat) : List String → Option (List String)
  | [] => some []
  | t :: rest =>
    match formatDay d i t, formatDaysAux d (i + 1) rest with
    | some line, some more => some (line :: more)
    | _, _ => none

/-- `get_weather_forecast` (lines 100-158), with the two HTTP requests' outcomes
supplied as inputs.  Every exception inside the body is caught by the
`except Exception` of line 157 and converted to an error string; an empty (or
missing) geocoding `results` array returns the "not found" string of line
125. -/
def get_weather_forecast (location _start_date _end_date : String)
    (geo : HttpOutcome GeoData) (weather : HttpOutcome WeatherData) : String :=
  match geo with
  | .exn m => "Error getting weather data: " ++ m
  | .ok geo_data =>
    if geo_data.results.isEmpty then
      "Location '" ++ location ++ "' not found"
    else
      match weather with
      | .exn m => "Error getting weather data: " ++ m
      | .ok weather_data =>
        match formatDaysAux weather_data.daily 0 weather_data.daily.time with
        | none => "Error getting weather data: list index out of range"
        | some days =>
            "Weather forecast for " ++ location ++ ":\n" ++ String.intercalate "\n" days

example : parse_date_with_reference "December 23rd" ⟨2024, 1, 10⟩ = ⟨2024, 12, 23⟩ := by decide
example : parse_date_with_reference "December 1" ⟨2024, 12, 31⟩ = ⟨2024, 12, 1⟩ := by decide
example : parse_date_with_reference "12/23" ⟨2024, 6, 1⟩ = ⟨2024, 12, 23⟩ := by decide
example : parse_date_with_reference "1/2" ⟨2024, 6, 1⟩ = ⟨2025, 1, 2⟩ := by decide
example : parse_date_with_reference "@@@@" ⟨2024, 6, 1⟩ = ⟨2024, 6, 1⟩ := by decide
example : parse_date_with_reference "February 29" ⟨2024, 6, 1⟩ = ⟨2024, 6, 1⟩ := by decide
example : parse_date_with_reference "December 23, 2022" ⟨2024, 1, 10⟩ = ⟨2024, 12, 23⟩ := by
  decide

theorem rollover_dec31 (d R : Date) (h : (R.month, R.day) = ((12 : Nat), (31 : Nat))) :
    rollover d R = some d := by
  have h1 : R.month = 12 := congrArg Prod.fst h
  have h2 : R.day = 31 := congrArg Prod.snd h
  simp [rollover, h1, h2]

theorem rollover_roll (d R : Date) (hlt : Date.ltb d R = true)
    (hne : (R.month, R.day) ≠ ((12 : Nat), (31 : Nat)))
    (hv : validDate (R.year + 1) d.month d.day = true) :
    rollover d R = some ⟨R.year + 1, d.month, d.day⟩ := by
  have hb : (R.month == 12 && R.day == 31) = false := by
    rw [Bool.eq_false_iff]
    intro hcontra
    rw [Bool.and_eq_true, beq_iff_eq, beq_iff_eq] at hcontra
    exact hne (by rw [hcontra.1, hcontra.2])
  simp [rollover, hlt, hb, Date.replaceYear, hv]

theorem parse_eq_of_construct1 (s : String) (R d x : Date)
    (hc : constructFromPattern (matchMonthDay s) R.year = some d)
    (hr : rollover d R = some x) :
    parse_date_with_reference s R = x := by
  simp [parse_date_with_reference, tryFormats, tryPattern, hc, hr]

theorem parse_eq_of_slash (s : String) (R d x : Date)
    (h1 : constructFromPattern (matchMonthDay s) R.year = none)
    (hc : constructFromPattern (matchSlash s) R.year = some d)
    (hr : rollover d R = some x) :
    parse_date_with_reference s R = x := by
  simp [parse_date_with_reference, tryFormats, tryPattern, h1, hc, hr]

/-- C1 (amended): if a pattern of the resolver constructs a date `d` from the
input with reference year `R.year`, then (i) when `d` is strictly earlier than
`R`, `R` is not December 31, and `d`'s month/day exists in year `R.year + 1`
(which only fails for February 29 rolling into a non-leap year), the resolver
returns `d` with year `R.year + 1`; and (ii) when `R` is December 31 of any
year, the resolver returns `d` unchanged even when it is earlier than `R`. -/
theorem C1_rollover (s : String) (R d : Date)
    (hc : constructedDate s R.year = some d) :
    ((R.month, R.day) ≠ ((12 : Nat), (31 : Nat)) → Date.ltb d R = true →
      validDate (R.year + 1) d.month d.day = true →
      parse_date_with_reference s R = ⟨R.year + 1, d.month, d.day⟩) ∧
    ((R.month, R.day) = ((12 : Nat), (31 : Nat)) →
      parse_date_with_reference s R = d) := by
  have key : ∀ x : Date, rollover d R = some x → parse_date_with_reference s R = x := by
    intro x hr
    unfold constructedDate at hc
    cases h1 : constructFromPattern (matchMonthDay s) R.year with
    | some d1 =>
        simp only [h1, Option.some.injEq] at hc
        subst hc
        exact parse_eq_of_construct1 s R d1 x h1 hr
    | none =>
        simp only [h1] at hc
        exact parse_eq_of_slash s R d x h1 hc hr
  constructor
  · intro hne hlt hv
    exact key _ (rollover_roll d R hlt hne hv)
  · intro he
    exact key d (rollover_dec31 d R he)

/-- C1 counterexample: for the input "February 29" and reference date
2024-06-01, the format loop constructs 2024-02-29 with the reference year, that
date is strictly earlier than the reference date, and the reference date is not
December 31 — yet the resolver does not return the constructed date with year
2025 (no such date exists; the `replace` raises and the resolver falls back to
returning the reference date itself). -/
theorem C1_counterexample :
    constructedDate "February 29" (2024 : Int) = some ⟨2024, 2, 29⟩ ∧
    Date.ltb ⟨2024, 2, 29⟩ ⟨2024, 6, 1⟩ = true ∧
    (((6 : Nat), (1 : Nat)) ≠ ((12 : Nat), (31 : Nat))) ∧
    parse_date_with_reference "February 29" ⟨2024, 6, 1⟩ = ⟨2024, 6, 1⟩ ∧
    parse_date_with_reference "February 29" ⟨2024, 6, 1⟩ ≠ ⟨2025, 2, 29⟩ := by decide

/-- C1 witness: the December 31 quirk on the claim's own example, and an
ordinary rollover case. -/
theorem C1_rollover_witness :
    parse_date_with_reference "December 1" ⟨2024, 12, 31⟩ = ⟨2024, 12, 1⟩ ∧
    parse_date_with_reference "July 4" ⟨2024, 12, 1⟩ = ⟨2025, 7, 4⟩ :=
  ⟨(C1_rollover "December 1" ⟨2024, 12, 31⟩ ⟨2024, 12, 1⟩ (by decide)).2 (by decide),
   (C1_rollover "July 4" ⟨2024, 12, 1⟩ ⟨2024, 7, 4⟩ (by decide)).1 (by decide) (by decide)
     (by decide)⟩

/-- C2: `parse_date_with_reference` always returns a date — one produced by the
format loop, one produced by the fallback, or the reference date itself (so no
exception escapes any branch) — and when no pattern matches and the lenient
fallback parser also fails, it returns the reference date unchanged. -/
theorem C2_never_raises (s : String) (R : Date) :
    ((∃ d, tryFormats s R = some d ∧ parse_date_with_reference s R = d) ∨
     (∃ d, tryFormats s R = none ∧ dateutilStep s R = some d ∧
       parse_date_with_reference s R = d) ∨
     (tryFormats s R = none ∧ dateutilStep s R = none ∧
       parse_date_with_reference s R = R)) ∧
    (matchMonthDay s = none → matchSlash s = none → dateutil_parse s R = none →
      parse_date_with_reference s R = R) := by
  constructor
  · cases hf : tryFormats s R with
    | some d => exact Or.inl ⟨d, rfl, by simp [parse_date_with_reference, hf]⟩
    | none =>
      cases hd : dateutilStep s R with
      | some d =>
          exact Or.inr (Or.inl ⟨d, rfl, rfl, by simp [parse_date_with_reference, hf, hd]⟩)
      | none =>
          exact Or.inr (Or.inr ⟨rfl, rfl, by simp [parse_date_with_reference, hf, hd]⟩)
  · intro h1 h2 h3
    simp [parse_date_with_reference, tryFormats, tryPattern, constructFromPattern,
      dateutilStep, h1, h2, h3]

/-- C2 witness: a garbage string resolves to the reference date itself. -/
theorem C2_witness : parse_date_with_reference "@@@@" ⟨2024, 6, 1⟩ = ⟨2024, 6, 1⟩ :=
  (C2_never_raises "@@@@" ⟨2024, 6, 1⟩).2 (by decide) (by decide) (by decide)

/-- C3 counterexample: "December 23, 2022" with reference date 2024-01-10 does
NOT resolve to 2022-12-23 — the Month-Day prefix pattern matches, the explicit
year is never captured, and the reference year is substituted; with reference
2025-01-10 the same string resolves differently, so the reference date does
affect the result. -/
theorem C3_counterexample :
    parse_date_with_reference "December 23, 2022" ⟨2024, 1, 10⟩ = ⟨2024, 12, 23⟩ ∧
    ((⟨2024, 12, 23⟩ : Date) ≠ ⟨2022, 12, 23⟩) ∧
    parse_date_with_reference "December 23, 2022" ⟨2025, 1, 10⟩ = ⟨2025, 12, 23⟩ ∧
    parse_date_with_reference "December 23, 2022" ⟨2024, 1, 10⟩ ≠
      parse_date_with_reference "December 23, 2022" ⟨2025, 1, 10⟩ := by decide

/-- C3 (amended): a date string carrying an explicit year whose month-day prefix
matches the resolver's textual pattern has its stated year ignored: for every
reference date the result is identical to resolving the year-less string, its
year is the reference year or the reference year plus one, and only month and
day come from the string. -/
theorem C3_year_ignored (R : Date) :
    parse_date_with_reference "December 23, 2022" R =
      parse_date_with_reference "December 23" R ∧
    ((parse_date_with_reference "December 23, 2022" R).year = R.year ∨
     (parse_date_with_reference "December 23, 2022" R).year = R.year + 1) ∧
    (parse_date_with_reference "December 23, 2022" R).month = 12 ∧
    (parse_date_with_reference "December 23, 2022" R).day = 23 := by
  have hm1 : matchMonthDay "December 23, 2022" = some ("December", "23") := by decide
  have hm2 : matchMonthDay "December 23" = some ("December", "23") := by decide
  have hmn : monthFromName "December" = some 12 := by decide
  have hdn : parseNatStr "23" = some 23 := by decide
  have hday : ∀ y : Int, daysInMonth y 12 = 31 := fun y => rfl
  have hs : strptime_BdY "December" "23" R.year = some ⟨R.year, 12, 23⟩ := by
    simp [strptime_BdY, hmn, hdn, hday]
  have hc1 : constructFromPattern (matchMonthDay "December 23, 2022") R.year
      = some ⟨R.year, 12, 23⟩ := by
    rw [hm1]; simpa [constructFromPattern] using hs
  have hc2 : constructFromPattern (matchMonthDay "December 23") R.year
      = some ⟨R.year, 12, 23⟩ := by
    rw [hm2]; simpa [constructFromPattern] using hs
  have hv : validDate (R.year + 1) 12 23 = true := by
    simp [validDate, hday]
  cases hb : (Date.ltb ⟨R.year, 12, 23⟩ R && !(R.month == 12 && R.day == 31)) with
  | true =>
      have hr : rollover ⟨R.year, 12, 23⟩ R = some ⟨R.year + 1, 12, 23⟩ := by
        unfold rollover
        rw [hb]
        simp [Date.replaceYear, hv]
      have e1 := parse_eq_of_construct1 "December 23, 2022" R _ _ hc1 hr
      have e2 := parse_eq_of_construct1 "December 23" R _ _ hc2 hr
      rw [e1, e2]
      exact ⟨rfl, Or.inr rfl, rfl, rfl⟩
  | false =>
      have hr : rollover ⟨R.year, 12, 23⟩ R = some ⟨R.year, 12, 23⟩ := by
        unfold rollover
        rw [hb]
        simp
      have e1 := parse_eq_of_construct1 "December 23, 2022" R _ _ hc1 hr
      have e2 := parse_eq_of_construct1 "December 23" R _ _ hc2 hr
      rw [e1, e2]
      exact ⟨rfl, Or.inl rfl, rfl, rfl⟩

theorem lowerStr_length (s : String) : (lowerStr s).data.length = s.data.length := by
  simp [lowerStr]

theorem monthFromName_short (s : String) (h : s.data.length ≤ 2) :
    monthFromName s = none := by
  have key : ∀ t : String, 3 ≤ t.data.length → (t == lowerStr s) = false := by
    intro t ht
    have hne : t ≠ lowerStr s := by
      intro he
      rw [he, lowerStr_length] at ht
      omega
    exact Bool.eq_false_iff.mpr (fun habs => hne (eq_of_beq habs))
  simp [monthFromName, monthNames, List.find?,
    key "january" (by decide), key "february" (by decide), key "march" (by decide),
    key "april" (by decide), key "may" (by decide), key "june" (by decide),
    key "july" (by decide), key "august" (by decide), key "september" (by decide),
    key "october" (by decide), key "november" (by decide), key "december" (by decide)]

theorem matchSlashAux_month_short (l : List Char) (g : String × String)
    (h : matchSlashAux l = some g) : g.1.data.length ≤ 2 := by
  rcases l with _ | ⟨a, _ | ⟨b, _ | ⟨c, rest⟩⟩⟩
  · simp [matchSlashAux] at h
  · simp [matchSlashAux] at h
  · simp [matchSlashAux] at h
  · simp only [matchSlashAux] at h
    split at h
    · rcases Option.map_eq_some'.mp h with ⟨d, -, hg⟩
      rw [← hg]
      simp
    · split at h
      · rcases Option.map_eq_some'.mp h with ⟨d, -, hg⟩
        rw [← hg]
        simp
      · exact absurd h (by simp)

theorem slash_no_construct (s : String) (y : Int) :
    constructFromPattern (matchSlash s) y = none := by
  cases hm : matchSlash s with
  | none => simp [constructFromPattern]
  | some g =>
    have hlen := matchSlashAux_month_short s.data g hm
    have hmn : monthFromName g.1 = none := monthFromName_short g.1 hlen
    simp [constructFromPattern, strptime_BdY, hmn]

/-- C4 counterexample: the numeric slash pattern does match "12/23", but the
format loop never constructs a date from it (the fixed month-name format
rejects a numeric month), so with reference date 2024-06-01 the whole format
loop yields nothing and the result 2024-12-23 is NOT produced by the slash
pattern's construction. -/
theorem C4_counterexample :
    matchSlash "12/23" = some ("12", "23") ∧
    constructFromPattern (matchSlash "12/23") (2024 : Int) = none ∧
    tryFormats "12/23" ⟨2024, 6, 1⟩ = none ∧
    parse_date_with_reference "12/23" ⟨2024, 6, 1⟩ = ⟨2024, 12, 23⟩ := by decide

/-- C4 (amended): the numeric slash pattern never yields a constructed date (its
month group is digits, which the month-name format rejects), so "MM/DD" inputs
are resolved by the lenient fallback parser with the reference date's year and
the rollover rule; in particular resolve("12/23", 2024-06-01) = 2024-12-23 and
resolve("1/2", 2024-06-01) = 2025-01-02, both via the fallback. -/
theorem C4_slash_fallback :
    (∀ (s : String) (y : Int), constructFromPattern (matchSlash s) y = none) ∧
    dateutilStep "12/23" ⟨2024, 6, 1⟩ = some ⟨2024, 12, 23⟩ ∧
    parse_date_with_reference "12/23" ⟨2024, 6, 1⟩ = ⟨2024, 12, 23⟩ ∧
    dateutilStep "1/2" ⟨2024, 6, 1⟩ = some ⟨2025, 1, 2⟩ ∧
    parse_date_with_reference "1/2" ⟨2024, 6, 1⟩ = ⟨2025, 1, 2⟩ :=
  ⟨slash_no_construct, by decide, by decide, by decide, by decide⟩

theorem runCalls_history (st : PlannerState) (calls : List CallSpec) :
    (runCalls st calls).chat_history = st.chat_history ++ (calls.map callTrace).flatten := by
  induction calls generalizing st with
  | nil => simp [runCalls]
  | cons c cs ih =>
    have hstep : runCalls st (c :: cs) =
        runCalls ⟨st.chat_history ++ c.turns.map convertTurn ++ [ChatMessage.ai c.output]⟩
          cs := rfl
    rw [hstep, ih]
    simp [callTrace, List.append_assoc]

/-- C5: every `plan_trip` result carries exactly one of `data`/`error`: `data`
is present exactly when `success` is true and `error` exactly when it is false,
on the success path, the missing-output path and the exception path alike. -/
theorem C5_result_envelope (st : PlannerState) (input : String)
    (turns : List ChatTurn) (outcome : AgentOutcome) :
    ((plan_trip st input turns outcome).1.data.isSome
        = (plan_trip st input turns outcome).1.success) ∧
    ((plan_trip st input turns outcome).1.error.isSome
        = !(plan_trip st input turns outcome).1.success) ∧
    ¬((plan_trip st input turns outcome).1.data.isSome = true ∧
      (plan_trip st input turns outcome).1.error.isSome = true) := by
  cases outcome with
  | ok r =>
    cases r with
    | none => exact ⟨rfl, rfl, by simp [plan_trip]⟩
    | some out => exact ⟨rfl, rfl, by simp [plan_trip]⟩
  | exn m t => exact ⟨rfl, rfl, by simp [plan_trip]⟩

/-- C6: every exception during prompt assembly, model invocation or response
unwrapping is caught: `plan_trip` returns `{success: false, error: e}` where
`e` contains both the exception message and the full diagnostic traceback. -/
theorem C6_exception_envelope (st : PlannerState) (input : String)
    (turns : List ChatTurn) (msg trace : String) :
    (plan_trip st input turns (AgentOutcome.exn msg trace)).1.success = false ∧
    (plan_trip st input turns (AgentOutcome.exn msg trace)).1.data = none ∧
    (plan_trip st input turns (AgentOutcome.exn msg trace)).1.error =
      some ("Error in plan_trip: " ++ msg ++ "\n\n" ++ trace) ∧
    (∃ pre post : String,
      "Error in plan_trip: " ++ msg ++ "\n\n" ++ trace = pre ++ msg ++ post) ∧
    (∃ pre : String,
      "Error in plan_trip: " ++ msg ++ "\n\n" ++ trace = pre ++ trace) := by
  refine ⟨rfl, rfl, rfl, ⟨"Error in plan_trip: ", "\n\n" ++ trace, ?_⟩,
    ⟨"Error in plan_trip: " ++ msg ++ "\n\n", rfl⟩⟩
  rw [String.append_assoc]

/-- C7: a successful `plan_trip` call leaves the history equal to the prior
history, then the caller-supplied turns converted to the two recognized roles
(role "user" to a human message, any other role to an assistant message), then
one assistant message with the model's answer; the history length never
decreases, and across any sequence of successful calls on the same instance the
history is exactly the initial history plus each call's appended turns. -/
theorem C7_history_append (st : PlannerState) (input : String)
    (turns : List ChatTurn) (out : String) :
    (plan_trip st input turns (AgentOutcome.ok (some out))).2.chat_history =
      st.chat_history ++ turns.map convertTurn ++ [ChatMessage.ai out] ∧
    (∀ c, convertTurn ⟨"user", c⟩ = ChatMessage.human c) ∧
    (∀ r c, r ≠ "user" → convertTurn ⟨r, c⟩ = ChatMessage.ai c) ∧
    st.chat_history.length ≤
      (plan_trip st input turns (AgentOutcome.ok (some out))).2.chat_history.length ∧
    (∀ calls : List CallSpec,
      (runCalls st calls).chat_history = st.chat_history ++ (calls.map callTrace).flatten) := by
  refine ⟨rfl, fun c => rfl, fun r c hr => ?_, ?_, fun calls => runCalls_history st calls⟩
  · simp [convertTurn, hr]
  · rw [show (plan_trip st input turns (AgentOutcome.ok (some out))).2.chat_history =
      st.chat_history ++ turns.map convertTurn ++ [ChatMessage.ai out] from rfl]
    simp [List.length_append]

/-- C7 witness: role conversion and one successful call on a fresh instance. -/
theorem C7_witness :
    convertTurn ⟨"assistant", "a1"⟩ = ChatMessage.ai "a1" ∧
    (plan_trip ⟨[]⟩ "hi" [⟨"user", "u1"⟩] (AgentOutcome.ok (some "answer"))).2.chat_history =
      [ChatMessage.human "u1", ChatMessage.ai "answer"] := by
  have h := C7_history_append ⟨[]⟩ "hi" [⟨"user", "u1"⟩] "answer"
  refine ⟨h.2.2.1 "assistant" "a1" (by decide), ?_⟩
  rw [h.1]
  decide

/-- C8: with an explicitly supplied (non-None) reference date the resolver
reads no wall clock: its result does not depend on the `today` value that the
default argument would otherwise consult, so two runs on the same arguments
are identical. -/
theorem C8_deterministic (s : String) (refOpt : Option Date) (R today1 today2 : Date)
    (h : refOpt = some R) :
    parse_date_with_reference_default s refOpt today1 =
      parse_date_with_reference_default s refOpt today2 := by
  subst h
  rfl

/-- C8 witness: the same bound reference date under two different clocks. -/
theorem C8_witness :
    parse_date_with_reference_default "December 23" (some ⟨2024, 1, 10⟩) ⟨2024, 1, 1⟩ =
      parse_date_with_reference_default "December 23" (some ⟨2024, 1, 10⟩) ⟨2030, 5, 5⟩ :=
  C8_deterministic "December 23" (some ⟨2024, 1, 10⟩) ⟨2024, 1, 10⟩ ⟨2024, 1, 1⟩
    ⟨2030, 5, 5⟩ rfl

/-- C9: the weather tool returns "Location '<location>' not found" when the
geocoding response has no results, and converts any exception of either HTTP
request into an error string returned as tool output instead of raising. -/
theorem C9_weather_errors (location sd ed m : String) (g : GeoData)
    (w : HttpOutcome WeatherData) :
    (g.results = [] → get_weather_forecast location sd ed (HttpOutcome.ok g) w =
      "Location '" ++ location ++ "' not found") ∧
    (get_weather_forecast location sd ed (HttpOutcome.exn m) w =
      "Error getting weather data: " ++ m) ∧
    (g.results ≠ [] →
      get_weather_forecast location sd ed (HttpOutcome.ok g) (HttpOutcome.exn m) =
        "Error getting weather data: " ++ m) := by
  refine ⟨fun h => ?_, rfl, fun h => ?_⟩
  · simp [get_weather_forecast, h]
  · cases hr : g.results with
    | nil => exact absurd hr h
    | cons a t => simp [get_weather_forecast, hr]

/-- C9 witness: the claim's "Atlantis" scenario. -/
theorem C9_witness :
    get_weather_forecast "Atlantis" "2024-06-01" "2024-06-03" (HttpOutcome.ok ⟨[]⟩)
      (HttpOutcome.ok ⟨⟨[], [], [], []⟩⟩) = "Location 'Atlantis' not found" := by
  have h := (C9_weather_errors "Atlantis" "2024-06-01" "2024-06-03" "err" ⟨[]⟩
    (HttpOutcome.ok ⟨⟨[], [], [], []⟩⟩)).1 rfl
  rw [h]
  decide

/-- C10: when `plan_trip` fails after extending the history (model invocation
raised, or the response lacked an "output" key), the appended caller-supplied
turns remain in the instance's history: failure does not restore the pre-call
state, so with any nonempty turn list the post-failure history differs from the
pre-call history. -/
theorem C10_failure_keeps_history (st : PlannerState) (input : String)
    (turns : List ChatTurn) (msg trace : String) :
    (plan_trip st input turns (AgentOutcome.exn msg trace)).1.success = false ∧
    (plan_trip st input turns (AgentOutcome.exn msg trace)).2.chat_history =
      st.chat_history ++ turns.map convertTurn ∧
    (plan_trip st input turns (AgentOutcome.ok none)).1.success = false ∧
    (plan_trip st input turns (AgentOutcome.ok none)).2.chat_history =
      st.chat_history ++ turns.map convertTurn ∧
    (turns ≠ [] →
      (plan_trip st input turns (AgentOutcome.exn msg trace)).2.chat_history ≠
        st.chat_history) := by
  refine ⟨rfl, rfl, rfl, rfl, fun hne hcontra => hne ?_⟩
  have h2 : st.chat_history ++ turns.map convertTurn = st.chat_history := hcontra
  have h3 := congrArg List.length h2
  rw [List.length_append, List.length_map] at h3
  exact List.length_eq_zero.mp (by omega)

/-- C10 witness: a failing call on a fresh instance keeps the appended turn. -/
theorem C10_witness :
    (plan_trip ⟨[]⟩ "q" [⟨"user", "hello"⟩] (AgentOutcome.exn "boom" "tb")).1.success
      = false ∧
    (plan_trip ⟨[]⟩ "q" [⟨"user", "hello"⟩] (AgentOutcome.exn "boom" "tb")).2.chat_history ≠
      ([] : List ChatMessage) := by
  have h := C10_failure_keeps_history ⟨[]⟩ "q" [⟨"user", "hello"⟩] "boom" "tb"
  exact ⟨h.1, h.2.2.2.2 (by decide)⟩
